import Mathlib

/-!
Verification of the metrax-backend donation-processing service.

The JavaScript source is shallowly embedded: JS runtime values that the
validators inspect are modelled by `JVal`, byte buffers by `List Nat`
(each entry a byte), fallible JS code (code that can throw a `TypeError`)
by `Except String`, and the external Stripe / Resend gateways by function
parameters whose calls are recorded in the route results.  JS numbers are
modelled by `ℚ` (every finite double is rational; `NaN` is the separate
constructor `JVal.nan`).
-/

namespace Metrax

/-- A JavaScript runtime value, restricted to the shapes the embedded
validators inspect: `undefined`, `null`, booleans, finite numbers, `NaN`
and strings. -/
inductive JVal where
  | undef
  | null
  | bool (b : Bool)
  | num (q : ℚ)
  | nan
  | str (s : String)
  deriving DecidableEq, Repr

/-- JS truthiness: `undefined`, `null`, `false`, `0`, `NaN` and `""` are
falsy, everything else is truthy. -/
def truthy : JVal → Bool
  | .undef => false
  | .null => false
  | .bool b => b
  | .num q => q != 0
  | .nan => false
  | .str s => s ≠ ""

/-- JS `Math.round` (round half toward positive infinity). -/
def jsRound (q : ℚ) : ℤ := ⌊q + 1/2⌋

/-- `Math.round` lifted to JS values: non-numbers coerce to `NaN`. -/
def jsRoundV : JVal → JVal
  | .num q => .num (jsRound q)
  | _ => .nan

/-- JS multiplication by a number: non-numbers give `NaN`. -/
def jsMulNum (v : JVal) (k : ℚ) : JVal :=
  match v with
  | .num q => .num (q * k)
  | _ => .nan

/-- JS `parseFloat` on a cleaned numeric string consisting of digits and
dots: reads an optional integer part and an optional fractional part and
stops at the second dot; returns `none` for `NaN` (no leading digits and
no fractional digits). -/
def parseFloatDigits (cs : List Char) : Option ℚ :=
  let intPart := cs.takeWhile Char.isDigit
  let rest := cs.dropWhile Char.isDigit
  let fracPart :=
    match rest with
    | '.' :: r => r.takeWhile Char.isDigit
    | _ => []
  if intPart = [] ∧ fracPart = [] then
    none
  else
    let iv : ℚ := intPart.foldl (fun a c => a * 10 + (c.toNat - 48)) 0
    let fv : ℚ := fracPart.foldl (fun a c => a * 10 + (c.toNat - 48)) 0
    some (iv + fv / (10 ^ fracPart.length))

/-! ## Hex encoding / decoding (Node `Buffer` semantics) -/

/-- Hex value of a single character, `none` on non-hex characters. -/
def hexVal? (c : Char) : Option Nat :=
  if '0' ≤ c ∧ c ≤ '9' then some (c.toNat - 48)
  else if 'a' ≤ c ∧ c ≤ 'f' then some (c.toNat - 87)
  else if 'A' ≤ c ∧ c ≤ 'F' then some (c.toNat - 55)
  else none

/-- Lowercase hex digit for a value `< 16`. -/
def hexDigitChar (n : Nat) : Char :=
  "0123456789abcdef".toList.getD n '0'

/-- Lowercase hex encoding of a byte list (`digest('hex')`). -/
def hexChars (bs : List Nat) : List Char :=
  bs.flatMap fun b => [hexDigitChar (b / 16 % 16), hexDigitChar (b % 16)]

/-- `Buffer.from(str, 'hex')`: decodes pairs of hex characters and stops
silently at the first invalid pair or at an odd trailing character. -/
def nodeHexDecode : List Char → List Nat
  | c1 :: c2 :: rest =>
    match hexVal? c1, hexVal? c2 with
    | some hi, some lo => (16 * hi + lo) :: nodeHexDecode rest
    | _, _ => []
  | _ => []

/-- JS `String.prototype.replace` with a string pattern: replaces only the
first occurrence of the (non-empty) pattern, here with the empty string. -/
def replaceFirstList (pat : List Char) : List Char → List Char
  | [] => []
  | c :: rest =>
    if pat.isPrefixOf (c :: rest) then (c :: rest).drop pat.length
    else c :: replaceFirstList pat rest

/-- The character list of the stripped signature marker. -/
def whsecPat : List Char := "whsec_".toList

/-! ## SHA-256 and HMAC-SHA256 (the Node `crypto` primitives used by
`validateWebhookSignature`), over byte lists with 32-bit arithmetic done
in `Nat` modulo `2^32`. -/

def w32 (n : Nat) : Nat := n % 4294967296

def rotr32 (n x : Nat) : Nat := w32 ((x >>> n) ||| (x <<< (32 - n)))

def shaBigSigma0 (x : Nat) : Nat := rotr32 2 x ^^^ rotr32 13 x ^^^ rotr32 22 x
def shaBigSigma1 (x : Nat) : Nat := rotr32 6 x ^^^ rotr32 11 x ^^^ rotr32 25 x
def shaSmallSigma0 (x : Nat) : Nat := rotr32 7 x ^^^ rotr32 18 x ^^^ (x >>> 3)
def shaSmallSigma1 (x : Nat) : Nat := rotr32 17 x ^^^ rotr32 19 x ^^^ (x >>> 10)

/-- The 64 SHA-256 round constants (FIPS 180-4, written in decimal). -/
def shaK : List Nat :=
  [1116352408, 1899447441, 3049323471, 3921009573, 961987163,
   1508970993, 2453635748, 2870763221, 3624381080, 310598401,
   607225278, 1426881987, 1925078388, 2162078206, 2614888103,
   3248222580, 3835390401, 4022224774, 264347078, 604807628,
   770255983, 1249150122, 1555081692, 1996064986, 2554220882,
   2821834349, 2952996808, 3210313671, 3336571891, 3584528711,
   113926993, 338241895, 666307205, 773529912, 1294757372,
   1396182291, 1695183700, 1986661051, 2177026350, 2456956037,
   2730485921, 2820302411, 3259730800, 3345764771, 3516065817,
   3600352804, 4094571909, 275423344, 430227734, 506948616,
   659060556, 883997877, 958139571, 1322822218, 1537002063,
   1747873779, 1955562222, 2024104815, 2227730452, 2361852424,
   2428436474, 2756734187, 3204031479, 3329325298]

/-- SHA-256 working state: eight 32-bit words. -/
structure ShaState where
  a : Nat
  b : Nat
  c : Nat
  d : Nat
  e : Nat
  f : Nat
  g : Nat
  h : Nat
  deriving Repr

def shaInit : ShaState :=
  ⟨1779033703, 3144134277, 1013904242, 2773480762,
   1359893119, 2600822924, 528734635, 1541459225⟩

/-- One SHA-256 round with round constant `k` and schedule word `w`. -/
def shaRound (s : ShaState) (k w : Nat) : ShaState :=
  let t1 := w32 (s.h + shaBigSigma1 s.e + ((s.e &&& s.f) ^^^ ((2^32 - 1 - w32 s.e) &&& s.g)) + k + w)
  let t2 := w32 (shaBigSigma0 s.a + ((s.a &&& s.b) ^^^ (s.a &&& s.c) ^^^ (s.b &&& s.c)))
  ⟨w32 (t1 + t2), s.a, s.b, s.c, w32 (s.d + t1), s.e, s.f, s.g⟩

def shaAdd (x y : ShaState) : ShaState :=
  ⟨w32 (x.a + y.a), w32 (x.b + y.b), w32 (x.c + y.c), w32 (x.d + y.d),
   w32 (x.e + y.e), w32 (x.f + y.f), w32 (x.g + y.g), w32 (x.h + y.h)⟩

/-- Message schedule of one 64-byte block: 16 big-endian words extended
to 64. -/
def shaSchedule (block : List Nat) : Array Nat :=
  let first16 : Array Nat := (Array.range 16).map fun i =>
    w32 (block.getD (4 * i) 0 % 256 * 16777216 + block.getD (4 * i + 1) 0 % 256 * 65536 +
         block.getD (4 * i + 2) 0 % 256 * 256 + block.getD (4 * i + 3) 0 % 256)
  (List.range 48).foldl (fun w _ =>
    let t := w.size
    w.push (w32 (shaSmallSigma1 (w.getD (t - 2) 0) + w.getD (t - 7) 0 +
                 shaSmallSigma0 (w.getD (t - 15) 0) + w.getD (t - 16) 0)))
    first16

/-- Compress one 64-byte block into the running hash state. -/
def shaCompress (h : ShaState) (block : List Nat) : ShaState :=
  let w := shaSchedule block
  let s := (List.range 64).foldl (fun s t => shaRound s (shaK.getD t 0) (w.getD t 0)) h
  shaAdd h s

/-- SHA-256 padding: append `0x80`, zero-fill to 56 mod 64, then the
64-bit big-endian bit length. -/
def shaPad (msg : List Nat) : List Nat :=
  let l := msg.length
  let zeros := (120 - (l + 1) % 64) % 64
  let bitLen := 8 * l
  msg ++ [0x80] ++ List.replicate zeros 0 ++
    [bitLen >>> 56 % 256, bitLen >>> 48 % 256, bitLen >>> 40 % 256, bitLen >>> 32 % 256,
     bitLen >>> 24 % 256, bitLen >>> 16 % 256, bitLen >>> 8 % 256, bitLen % 256]

/-- Big-endian bytes of one 32-bit word. -/
def wordBytes (w : Nat) : List Nat :=
  [w >>> 24 % 256, w >>> 16 % 256, w >>> 8 % 256, w % 256]

def shaDigestBytes (s : ShaState) : List Nat :=
  wordBytes s.a ++ wordBytes s.b ++ wordBytes s.c ++ wordBytes s.d ++
  wordBytes s.e ++ wordBytes s.f ++ wordBytes s.g ++ wordBytes s.h

/-- SHA-256 of a byte list. -/
def sha256 (msg : List Nat) : List Nat :=
  let padded := shaPad msg
  let nBlocks := padded.length / 64
  let final := (List.range nBlocks).foldl
    (fun h i => shaCompress h ((padded.drop (64 * i)).take 64)) shaInit
  shaDigestBytes final

/-- HMAC-SHA256 with byte-list key and message (`crypto.createHmac`). -/
def hmacSha256 (key msg : List Nat) : List Nat :=
  let k0 := if key.length > 64 then sha256 key else key
  let kp := k0 ++ List.replicate (64 - k0.length) 0
  sha256 ((kp.map fun b => b ^^^ 0x5c) ++ sha256 ((kp.map fun b => b ^^^ 0x36) ++ msg))

/-- `crypto.timingSafeEqual`: throws (`none`) when the buffer lengths
differ, otherwise compares contents. -/
def timingSafeEqual (a b : List Nat) : Option Bool :=
  if a.length = b.length then some (a == b) else none

/-- `validateWebhookSignature(payload, signature, secret)` from
`src/config/config.js` (utils/validation): HMAC-SHA256 the payload bytes
with the secret, hex-encode, strip the first `whsec_` occurrence from the
signature, hex-decode both sides and compare with `timingSafeEqual`; any
exception (length mismatch) yields `false`. -/
def validateWebhookSignature (payload : List Nat) (signature : String) (secret : List Nat) : Bool :=
  let expectedHex := hexChars (hmacSha256 secret payload)
  let sigBytes := nodeHexDecode (replaceFirstList whsecPat signature.toList)
  let expBytes := nodeHexDecode expectedHex
  match timingSafeEqual sigBytes expBytes with
  | some b => b
  | none => false

/-! ## The `validator` npm library primitives used by the source

`validator.isEmail` is an external library routine whose internals the
repository does not contain; it is taken as a function parameter
(`isEmail : String → Bool`) in everything below.  `validator.isUUID`
(no version argument) is its documented all-versions regex
`^[0-9A-F]{8}-[0-9A-F]{4}-[0-9A-F]{4}-[0-9A-F]{4}-[0-9A-F]{12}$/i`,
embedded concretely.  Both `validator` entry points first assert that the
argument is a string and throw a `TypeError` otherwise; the throwing
behaviour appears in the `Except`-valued validators below. -/

def isHexChar (c : Char) : Bool :=
  ('0' ≤ c ∧ c ≤ '9') ∨ ('a' ≤ c ∧ c ≤ 'f') ∨ ('A' ≤ c ∧ c ≤ 'F')

/-- Split a character list on `-` (the grouping underlying the UUID
regex). -/
def splitOnDash : List Char → List (List Char)
  | [] => [[]]
  | c :: rest =>
    match splitOnDash rest with
    | [] => [[]]
    | g :: gs => if c = '-' then [] :: g :: gs else (c :: g) :: gs

/-- `validator.isUUID(s)` with no version argument: five dash-separated
groups of 8-4-4-4-12 hex characters. -/
def isUUIDStr (s : String) : Bool :=
  match splitOnDash s.toList with
  | [a, b, c, d, e] =>
    a.length = 8 ∧ b.length = 4 ∧ c.length = 4 ∧ d.length = 4 ∧ e.length = 12 ∧
    (a ++ b ++ c ++ d ++ e).all isHexChar
  | _ => false

/-- The friendly project-id regex `^[a-z0-9-]{3,64}$/i`. -/
def friendlyProjectIdOk (s : String) : Bool :=
  3 ≤ s.length ∧ s.length ≤ 64 ∧
  s.toList.all fun c => ('a' ≤ c ∧ c ≤ 'z') ∨ ('A' ≤ c ∧ c ≤ 'Z') ∨ c.isDigit ∨ c = '-'

/-- JS `String.prototype.toLowerCase`, ASCII range (all strings the
embedded checks lowercase are ASCII). -/
def jsToLower (s : String) : String := String.mk (s.data.map Char.toLower)

/-- JS `String.prototype.trim`: drop leading and trailing whitespace. -/
def jsTrim (s : String) : String :=
  String.mk (((s.data.dropWhile Char.isWhitespace).reverse.dropWhile
    Char.isWhitespace).reverse)

/-- The newsletter route's email regex `^\S+@\S+\.\S+$`: the string
matches iff it can be split as `A@B.C` with `A`, `B`, `C` non-empty and
every character a non-whitespace character. -/
def emailRegexMatch (s : String) : Bool :=
  let cs := s.toList
  let n := cs.length
  cs.all (fun c => ¬c.isWhitespace) ∧
  ((List.range n).any fun i =>
    cs.getD i ' ' = '@' ∧ 1 ≤ i ∧
    ((List.range n).any fun j => cs.getD j ' ' = '.' ∧ i + 2 ≤ j ∧ j + 2 ≤ n))

/-! ## Validation utilities (`src/config/config.js`, utils/validation part)

Each validator takes the JS value of the field it inspects.  The config
constants are inlined: minDonationAmount 1.00, maxDonationAmount
10000.00, maxMessageLength 500, maxNameLength 100, maxEmailLength 254. -/

/-- `validateAmount`: a (non-`NaN`) number within `[1, 10000]`. -/
def validateAmountV (amount : JVal) : Bool :=
  match amount with
  | .num q => 1 ≤ q ∧ q ≤ 10000
  | _ => false

/-- `validateEmail`: truthy string accepted by `validator.isEmail` with
length ≤ 254. -/
def validateEmailV (isEmail : String → Bool) (email : JVal) : Bool :=
  match email with
  | .str s => s ≠ "" ∧ isEmail s ∧ s.length ≤ 254
  | _ => false

/-- `validateName` on a string: non-empty trimmed, length ≤ 100, every
character a Unicode letter (the parameter `isUL` stands for the `\p{L}`
class of the library regex), space, hyphen, apostrophe or period. -/
def validateNameStr (isUL : Char → Bool) (s : String) : Bool :=
  let t := jsTrim s
  t.length > 0 ∧ t.length ≤ 100 ∧
  t.toList.all fun c => isUL c ∨ c.isWhitespace ∨ c = '-' ∨ c = Char.ofNat 39 ∨ c = '.'

/-- `validateName` on a JS value: truthy string passing `validateNameStr`. -/
def validateNameV (isUL : Char → Bool) (name : JVal) : Bool :=
  match name with
  | .str s => s ≠ "" ∧ validateNameStr isUL s
  | _ => false

/-- `validateMessage`: falsy values pass (optional field), non-strings
fail, strings must have length ≤ 500. -/
def validateMessageV (message : JVal) : Bool :=
  if ¬truthy message then true
  else match message with
    | .str s => s.length ≤ 500
    | _ => false

/-- `validateProjectId`: truthy string that after trimming is `general`
(case-insensitively), a UUID, or a friendly slug. -/
def validateProjectIdV (projectId : JVal) : Bool :=
  match projectId with
  | .str s =>
    s ≠ "" ∧
    (let t := jsTrim s
     jsToLower t = "general" ∨ isUUIDStr t ∨ friendlyProjectIdOk t)
  | _ => false

/-- `validatePaymentMethod`: membership in the allowed-methods array
(`includes` matches only equal strings). -/
def validatePaymentMethodV (pm : JVal) : Bool :=
  pm = .str "stripe" ∨ pm = .str "manual" ∨ pm = .str "check" ∨ pm = .str "cash"

/-- `validateAnonymous`: `typeof anonymous === 'boolean'`. -/
def validateAnonymousV : JVal → Bool
  | .bool _ => true
  | _ => false

/-- A `{isValid, errors}` result object. -/
structure ValResult where
  isValid : Bool
  errors : List String
  deriving DecidableEq, Repr

def amountRangeMsg : String := "Amount must be between $1 and $10000"
def refundRangeMsg : String := "Refund amount must be between $1 and $10000"

/-- The donation payload record handed to the validators and the Stripe
service; every field is a JS value. -/
structure DonationData where
  amount : JVal := .undef
  projectId : JVal := .undef
  donorName : JVal := .undef
  donorEmail : JVal := .undef
  anonymous : JVal := .undef
  message : JVal := .undef
  projectTitle : JVal := .undef
  paymentMethod : JVal := .undef
  deriving DecidableEq, Repr

/-- The donor-name checks of `validateDonationData` (utils): in the
non-anonymous branch a truthy non-string `donorName` reaches
`donorName.trim()` and throws a `TypeError`. -/
def donorNameErrors (isUL : Char → Bool) (anonymous donorName : JVal) :
    Except String (List String) :=
  if ¬truthy anonymous then
    if ¬truthy donorName then
      .ok ["Donor name is required for non-anonymous donations"]
    else match donorName with
      | .str s =>
        if jsTrim s = "" then .ok ["Donor name is required for non-anonymous donations"]
        else if ¬validateNameStr isUL s then .ok ["Invalid donor name format"]
        else .ok []
      | _ => .error "TypeError: donationData.donorName.trim is not a function"
  else
    if truthy donorName ∧ donorName ≠ .str "Anonymous" ∧ ¬validateNameV isUL donorName then
      .ok ["Invalid donor name format"]
    else .ok []

/-- `validateDonationData` from `src/config/config.js` (utils): pushes an
error per failing field and returns `{isValid: errors.length === 0,
errors}`; modelled in `Except` because the donor-name branch can throw. -/
def validateDonationDataU (isEmail : String → Bool) (isUL : Char → Bool)
    (d : DonationData) : Except String ValResult :=
  match donorNameErrors isUL d.anonymous d.donorName with
  | .error e => .error e
  | .ok e4 =>
    let e1 := if ¬truthy d.amount then ["Amount is required"]
              else if ¬validateAmountV d.amount then [amountRangeMsg] else []
    let e2 := if ¬truthy d.projectId then ["Project ID is required"]
              else if ¬validateProjectIdV d.projectId then ["Invalid project ID format"] else []
    let e3 := if ¬truthy d.donorEmail then ["Donor email is required"]
              else if ¬validateEmailV isEmail d.donorEmail then ["Invalid email format"] else []
    let e5 := if truthy d.message ∧ ¬validateMessageV d.message
              then ["Message must be less than 500 characters"] else []
    let e6 := if truthy d.paymentMethod ∧ ¬validatePaymentMethodV d.paymentMethod
              then ["Invalid payment method"] else []
    let e7 := if d.anonymous ≠ .undef ∧ ¬validateAnonymousV d.anonymous
              then ["Invalid anonymous flag"] else []
    let errors := e1 ++ e2 ++ e3 ++ e4 ++ e5 ++ e6 ++ e7
    .ok { isValid := errors.isEmpty, errors := errors }

/-- The refund payload record. -/
structure RefundData where
  paymentIntentId : JVal := .undef
  amount : JVal := .undef
  reason : JVal := .undef
  deriving DecidableEq, Repr

/-- The payment-intent-id check of `validateRefundData`: a truthy
non-string id reaches `validator.isUUID`, whose string assertion throws
a `TypeError`. -/
def refundPidErrors (pid : JVal) : Except String (List String) :=
  if ¬truthy pid then .ok ["Payment intent ID is required"]
  else match pid with
    | .str s => .ok (if ¬isUUIDStr s then ["Invalid payment intent ID format"] else [])
    | _ => .error "TypeError: Expected a string but received a non-string"

/-- `validateRefundData` from `src/config/config.js` (utils). -/
def validateRefundDataU (d : RefundData) : Except String ValResult :=
  match refundPidErrors d.paymentIntentId with
  | .error e => .error e
  | .ok e1 =>
    let e2 := if truthy d.amount ∧ ¬validateAmountV d.amount then [refundRangeMsg] else []
    let e3 := if truthy d.reason ∧
                 ¬(d.reason = .str "requested_by_customer" ∨ d.reason = .str "duplicate" ∨
                   d.reason = .str "fraudulent")
              then ["Invalid refund reason"] else []
    let errors := e1 ++ e2 ++ e3
    .ok { isValid := errors.isEmpty, errors := errors }

/-! ## Stripe service (`src/services/stripeService.js`)

The Stripe SDK is external; each call site takes the gateway as a
function parameter and the route results record the arguments of every
call that was issued, so "the gateway is never called" is expressible. -/

/-- `value.length > n` in JS: strings compare their length, `length` of
any other value here is `undefined` and the comparison is `false`. -/
def jsLenGt (v : JVal) (n : Nat) : Bool :=
  match v with
  | .str s => s.length > n
  | _ => false

/-- `StripeService.validateDonationData` (the service's own validator,
`stripeService.js` lines 155–195): length checks only, no name regex. -/
def validateDonationDataS (isEmail : String → Bool) (d : DonationData) : ValResult :=
  let e1 := if ¬truthy d.amount then ["Amount is required"]
            else if ¬validateAmountV d.amount then [amountRangeMsg] else []
  let e2 := if ¬truthy d.projectId then ["Project ID is required"] else []
  let e3 := if ¬truthy d.donorName ∧ ¬truthy d.anonymous
            then ["Donor name is required for non-anonymous donations"] else []
  let e4 := if ¬truthy d.donorEmail then ["Donor email is required"]
            else if ¬validateEmailV isEmail d.donorEmail then ["Invalid email format"] else []
  let e5 := if truthy d.donorName ∧ jsLenGt d.donorName 100
            then ["Donor name must be less than 100 characters"] else []
  let e6 := if truthy d.donorEmail ∧ jsLenGt d.donorEmail 254
            then ["Email must be less than 254 characters"] else []
  let e7 := if truthy d.message ∧ jsLenGt d.message 500
            then ["Message must be less than 500 characters"] else []
  let errors := e1 ++ e2 ++ e3 ++ e4 ++ e5 ++ e6 ++ e7
  { isValid := errors.isEmpty, errors := errors }

/-- The metadata map sent with `stripe.paymentIntents.create`.  The
`anonymous` entry holds the raw value on which JS calls `.toString()`
(the `undefined`/`null` throw of that call is handled at the call
site). -/
structure PIMetadata where
  projectId : JVal
  donorName : JVal
  donorEmail : JVal
  message : JVal
  anonymous : JVal
  deriving DecidableEq, Repr

/-- Arguments of a `stripe.paymentIntents.create` call.  `projectTitle`
is the value interpolated into the `description` template string. -/
structure CreateArgs where
  amount : JVal
  currency : String
  metadata : PIMetadata
  projectTitle : JVal
  receiptEmail : JVal
  deriving DecidableEq, Repr

/-- The Stripe error taxonomy distinguished by `createPaymentIntent`'s
catch block. -/
inductive StripeErr where
  | cardError (msg : String)
  | invalidRequest
  | apiError
  | generic
  deriving DecidableEq, Repr

def stripeErrMsg : StripeErr → String
  | .cardError m => "Card error: " ++ m
  | .invalidRequest => "Invalid payment request"
  | .apiError => "Payment service temporarily unavailable"
  | .generic => "Payment processing failed"

/-- A payment intent as returned by the gateway. -/
structure PaymentIntent where
  id : String
  clientSecret : String
  amount : ℤ
  status : String
  deriving DecidableEq, Repr

/-- The object `createPaymentIntent` resolves with. -/
structure CreateResp where
  clientSecret : String
  paymentIntentId : String
  amount : JVal
  deriving DecidableEq, Repr

/-- `StripeService.createPaymentIntent` (`stripeService.js` lines
12–73).  Validation failure throws; the catch block rewraps any
non-Stripe error (including the validation error and the `TypeError` of
`donationData.anonymous.toString()` on a missing flag) into
`'Payment processing failed'`.  The second component records the
`stripe.paymentIntents.create` call, `none` when the gateway was never
invoked. -/
def createPaymentIntentService (isEmail : String → Bool)
    (gw : CreateArgs → Except StripeErr PaymentIntent) (d : DonationData) :
    Except String CreateResp × Option CreateArgs :=
  let v := validateDonationDataS isEmail d
  if ¬v.isValid then (.error "Payment processing failed", none)
  else
    match d.anonymous with
    | .undef => (.error "Payment processing failed", none)
    | .null => (.error "Payment processing failed", none)
    | a =>
      let amountInCents := jsRoundV (jsMulNum d.amount 100)
      let args : CreateArgs :=
        { amount := amountInCents
          currency := "cad"
          metadata :=
            { projectId := d.projectId
              donorName := if truthy a then .str "Anonymous" else d.donorName
              donorEmail := d.donorEmail
              message := if truthy d.message then d.message else .str ""
              anonymous := a }
          projectTitle := d.projectTitle
          receiptEmail := d.donorEmail }
      match gw args with
      | .ok pi =>
        (.ok { clientSecret := pi.clientSecret, paymentIntentId := pi.id,
               amount := amountInCents }, some args)
      | .error e => (.error (stripeErrMsg e), some args)

/-- Arguments of a `stripe.refunds.create` call: `amount` is omitted
(`undefined`) when the route-level amount is falsy. -/
structure RefundArgs where
  paymentIntent : String
  amount : Option JVal
  reason : JVal
  deriving DecidableEq, Repr

/-- `StripeService.createRefund` (`stripeService.js` lines 126–152):
`amount ? Math.round(amount * 100) : undefined`. -/
def createRefundService (gwRefund : RefundArgs → Except String String)
    (paymentIntentId : String) (amount : JVal) (reason : JVal) :
    Except String String × RefundArgs :=
  let args : RefundArgs :=
    { paymentIntent := paymentIntentId
      amount := if truthy amount then some (jsRoundV (jsMulNum amount 100)) else none
      reason := reason }
  match gwRefund args with
  | .ok refundId => (.ok refundId, args)
  | .error e => (.error ("Refund failed: " ++ e), args)

/-! ## Receipt service (`src/services/receiptService.js`)

The filesystem is modelled as the list of file paths present; PDF
drawing is irrelevant to the naming claims.  `path.join` is modelled as
separator concatenation (both the write and the read path join the same
configured upload directory, so normalization is shared). -/

def uploadPath : String := "./uploads"

def pathJoin (a b : String) : String := a ++ "/" ++ b

/-- The file name written by `generateReceipt`:
`receipt-${paymentIntentId}-${Date.now()}.pdf`. -/
def generateReceiptFileName (paymentIntentId : String) (now : Nat) : String :=
  "receipt-" ++ paymentIntentId ++ "-" ++ toString now ++ ".pdf"

/-- `getReceiptPath`: `path.join(uploadPath, 'receipt-${id}.pdf')`. -/
def getReceiptPath (paymentIntentId : String) : String :=
  pathJoin uploadPath ("receipt-" ++ paymentIntentId ++ ".pdf")

/-- `generateReceipt` writes the timestamped file and resolves with its
path. -/
def generateReceipt (files : List String) (paymentIntentId : String) (now : Nat) :
    List String × String :=
  let p := pathJoin uploadPath (generateReceiptFileName paymentIntentId now)
  (files ++ [p], p)

/-- `receiptExists`: `fs.access(getReceiptPath(id))` succeeds. -/
def receiptExists (files : List String) (paymentIntentId : String) : Bool :=
  getReceiptPath paymentIntentId ∈ files

/-! ## Webhook route (`src/routes/webhooks.js`, `POST /stripe`)

`JSON.parse` is a Node builtin; the route is parameterized by a parse
function `List Nat → Option ParsedPayload` (`none` models a parse
exception).  The second component of the result is the action the
dispatched `handleWebhook` took, `none` when the handler was never
invoked. -/

/-- Responses of the `/stripe` webhook route. -/
inductive WebhookResp where
  | missingSignature400
  | invalidSignature400
  | invalidPayload400
  | processingFailed500
  | received200
  deriving DecidableEq, Repr

def WebhookResp.status : WebhookResp → Nat
  | .missingSignature400 => 400
  | .invalidSignature400 => 400
  | .invalidPayload400 => 400
  | .processingFailed500 => 500
  | .received200 => 200

structure ReceiptResp where
  status : Nat
  isPdfDownload : Bool
  deriving DecidableEq, Repr

/-- The receipt route: a falsy id would get 400, every other request
gets the unconditional 501 "PDF receipt generation is currently
disabled" response; the commented-out download/404 logic is dead code. -/
def receiptRoute (paymentIntentId : String) : ReceiptResp :=
  if paymentIntentId = "" then ⟨400, false⟩ else ⟨501, false⟩

/-! ## Newsletter route (`src/routes/newsletter.js`,
`POST /subscribe`)

The subscriber file is modelled by the list of emails it holds
(`readSubscribers` of a missing file gives `[]`). -/

/-- `router.post('/subscribe')`: falsy or regex-rejected email → 400
(non-strings stringify without an `@` and fail the regex); an email
already in the list → 409 with the list untouched; otherwise the email
is appended and written back. -/
def subscribeRoute (subscribers : List String) (email : JVal) : List String × Nat :=
  match email with
  | .str s =>
    if ¬emailRegexMatch s then (subscribers, 400)
    else if s ∈ subscribers then (subscribers, 409)
    else (subscribers ++ [s], 200)
  | _ => (subscribers, 400)

/-! ## Refund route (`src/routes/donations.js`, `POST /refund`,
first router version lines 225–304) -/

/-- The exponent part of validator.js's float regex,
`(?:[eE][+-]?[0-9]+)?`, applied to the tail after the mantissa: an empty
tail means exponent 0, otherwise the whole tail must be `[eE]` followed
by an optional sign and at least one digit; anything else fails the
regex (`none`). -/
def floatExponent? (r : List Char) : Option ℤ :=
  match r with
  | [] => some 0
  | c :: t =>
    if c = 'e' ∨ c = 'E' then
      let body : ℤ × List Char :=
        match t with
        | '+' :: u => (1, u)
        | '-' :: u => (-1, u)
        | u => (1, u)
      if body.2 ≠ [] ∧ body.2.all Char.isDigit then
        some (body.1 * (body.2.foldl (fun a c => a * 10 + ((c.toNat - 48 : ℕ) : ℤ)) 0))
      else none
    else none

/-- `validator.isFloat`'s string acceptance and value (validator.js,
default locale): the strings `''`, `'.'`, `','`, `'-'`, `'+'` are
rejected outright; otherwise the entire string must match
`[+-]? [0-9]* (\.[0-9]*)? ([eE][+-]?[0-9]+)?` and carry at least one
mantissa digit (`parseFloat` of a digitless match such as `e5` is `NaN`,
which fails every min/max bound); the result is the parsed value. -/
def strFloatVal? (s : String) : Option ℚ :=
  if s = "" ∨ s = "." ∨ s = "," ∨ s = "-" ∨ s = "+" then none
  else
    let cs := s.toList
    let signBody : ℚ × List Char :=
      match cs with
      | '+' :: r => (1, r)
      | '-' :: r => (-1, r)
      | r => (1, r)
    let intPart := signBody.2.takeWhile Char.isDigit
    let r2 := signBody.2.dropWhile Char.isDigit
    let fracBody : List Char × List Char :=
      match r2 with
      | '.' :: r => (r.takeWhile Char.isDigit, r.dropWhile Char.isDigit)
      | r => ([], r)
    match floatExponent? fracBody.2 with
    | none => none
    | some ex =>
      if intPart = [] ∧ fracBody.1 = [] then none
      else
        let iv : ℚ := intPart.foldl (fun a c => a * 10 + ((c.toNat - 48 : ℕ) : ℚ)) 0
        let fv : ℚ := fracBody.1.foldl (fun a c => a * 10 + ((c.toNat - 48 : ℕ) : ℚ)) 0
        let m : ℚ := signBody.1 * (iv + fv / (10 ^ fracBody.1.length))
        some (if 0 ≤ ex then m * 10 ^ ex.toNat else m / 10 ^ (-ex).toNat)

/-- The `express-validator` chain of the refund route:
`paymentIntentId` must be a string, `amount` is optional but must be a
float ≥ 1, `reason` is optional but must be one of the three enum
values.  Failure responds 400 `Validation failed`. -/
def evRefundStage (b : RefundData) : Bool :=
  (match b.paymentIntentId with
   | .str _ => true
   | _ => false) &&
  (match b.amount with
   | .undef => true
   | .num q => decide (1 ≤ q)
   | .str s => (match strFloatVal? s with | some q => decide (1 ≤ q) | none => false)
   | _ => false) &&
  (match b.reason with
   | .undef => true
   | v => v == .str "requested_by_customer" || v == .str "duplicate" || v == .str "fraudulent")

/-- Result of a refund-route request: the response, the id passed to
`getPaymentIntent` (if it was called) and the recorded
`stripe.refunds.create` call (if it was issued). -/
structure RefundRouteResp where
  status : Nat
  errMsg : Option String
  piFetched : Option String
  refundCall : Option RefundArgs
  deriving DecidableEq, Repr

/-- `router.post('/refund')`: express-validator stage, then
`validateRefundData`, then `getPaymentIntent` (a gateway miss throws
`Payment not found`, caught as 500), then `createRefund`.  `gwGet`
models `stripe.paymentIntents.retrieve`, `gwRefund` models
`stripe.refunds.create`. -/
def refundRoute (gwGet : String → Option PaymentIntent)
    (gwRefund : RefundArgs → Except String String) (b : RefundData) : RefundRouteResp :=
  if ¬evRefundStage b then
    ⟨400, some "Validation failed", none, none⟩
  else
    let refundData : RefundData :=
      { paymentIntentId := b.paymentIntentId
        amount := b.amount
        reason := if truthy b.reason then b.reason else .str "requested_by_customer" }
    match validateRefundDataU refundData with
    | .error e => ⟨500, some e, none, none⟩
    | .ok v =>
      if ¬v.isValid then ⟨400, some "Invalid refund data", none, none⟩
      else
        match b.paymentIntentId with
        | .str pid =>
          match gwGet pid with
          | none => ⟨500, some "Payment not found", some pid, none⟩
          | some _pi =>
            match createRefundService gwRefund pid refundData.amount refundData.reason with
            | (.ok _, args) => ⟨200, none, some pid, some args⟩
            | (.error e, args) => ⟨500, some e, some pid, some args⟩
        | _ => ⟨500, some "unreachable: express-validator guarantees a string id", none, none⟩

/-! ## Create-payment-intent route (`src/routes/donations.js`, second
router version, `POST /create-payment-intent` with
`normalizeDonationPayload`)

The request body is modelled with the canonical camelCase fields; the
legacy fallback keys (`project_id`, `donor_name`, `firstName`/`lastName`,
`donor_email`/`email`, `note`/`comment`, `project_title`) are absent
(`undefined`) in the modelled requests, so the corresponding fallback
branches of `normalizeDonationPayload` read `undefined` and leave the
canonical field unchanged. -/

structure Body2 where
  amount : JVal := .undef
  projectId : JVal := .undef
  donorName : JVal := .undef
  donorEmail : JVal := .undef
  anonymous : JVal := .undef
  message : JVal := .undef
  projectTitle : JVal := .undef
  deriving DecidableEq, Repr

/-- `body.amount.replace(/[^0-9.]/g, '')` followed by `parseFloat`; the
original string is kept when the cleaned parse is `NaN`. -/
def normalizeAmount (v : JVal) : JVal :=
  match v with
  | .str s =>
    match parseFloatDigits (s.toList.filter fun c => c.isDigit ∨ c = '.') with
    | some q => .num q
    | none => .str s
  | v => v

/-- The donor-name normalization step: a truthy non-string `donorName`
under a truthy `anonymous` flag reaches `body.donorName.trim()` and
throws. -/
def normalizeDonorName (anonymous donorName : JVal) : Except String JVal :=
  if truthy anonymous then
    if ¬truthy donorName then .ok (JVal.str "Anonymous")
    else match donorName with
      | .str s => .ok (if jsTrim s = "" then JVal.str "Anonymous" else JVal.str s)
      | _ => .error "TypeError: body.donorName.trim is not a function"
  else .ok donorName

/-- `normalizeDonationPayload` (`donations.js` second version, lines
542–617). -/
def normalizeDonationPayload (b : Body2) : Except String Body2 :=
  let projectId := if ¬truthy b.projectId then JVal.null else b.projectId
  let projectId := match projectId with | .str s => JVal.str (jsTrim s) | v => v
  let donorName0 := match b.donorName with | .str s => JVal.str (jsTrim s) | v => v
  match normalizeDonorName b.anonymous donorName0 with
  | .error e => .error e
  | .ok donorName =>
    let donorEmail := if ¬truthy b.donorEmail then JVal.null else b.donorEmail
    let donorEmail := match donorEmail with | .str s => JVal.str (jsToLower (jsTrim s)) | v => v
    let anonymous := match b.anonymous with
      | .str s =>
        if jsToLower s = "true" then JVal.bool true
        else if jsToLower s = "false" then JVal.bool false
        else JVal.str s
      | v => v
    let anonymous := if anonymous = .undef ∨ anonymous = .null then JVal.bool false
                     else anonymous
    let amount := normalizeAmount b.amount
    let message := if b.message = .undef ∨ b.message = .null then JVal.str "" else b.message
    .ok { amount := amount, projectId := projectId, donorName := donorName,
          donorEmail := donorEmail, anonymous := anonymous, message := message,
          projectTitle := b.projectTitle }

/-- The `projectId` custom validator of the route (same general / UUID /
friendly-slug logic as the utils `validateProjectId`). -/
def routeProjectIdOk (v : JVal) : Bool :=
  match v with
  | .str s =>
    let t := jsTrim s
    jsToLower t == "general" || isUUIDStr t || friendlyProjectIdOk t
  | _ => false

/-- The `express-validator` chain of the second create-payment-intent
route, after normalization.  String coercions of exotic non-string
values (which no theorem exercises) are modelled conservatively:
non-strings fail the string-length checks. -/
def evCreateStage2 (isEmail : String → Bool) (b : Body2) : Bool :=
  (match b.amount with
   | .num q => decide (1 ≤ q ∧ q ≤ 10000)
   | .str s => (match strFloatVal? s with | some q => decide (1 ≤ q ∧ q ≤ 10000) | none => false)
   | _ => false) &&
  routeProjectIdOk b.projectId &&
  (if truthy b.anonymous then true
   else match b.donorName with
     | .str s => decide (s ≠ "" ∧ 1 ≤ s.length ∧ s.length ≤ 100)
     | _ => false) &&
  (if ¬truthy b.donorName then true
   else match b.donorName with
     | .str s => decide (s.length ≤ 100)
     | _ => false) &&
  (match b.donorEmail with
   | .str s => isEmail s
   | _ => false) &&
  (match b.anonymous with
   | .undef => true
   | .bool _ => true
   | .num q => q == 0 || q == 1
   | .str s => s == "true" || s == "false" || s == "1" || s == "0"
   | _ => false) &&
  (match b.message with
   | .undef => true
   | .str s => decide (s.length ≤ 500)
   | _ => true)

/-- `parseFloat(req.body.amount)` in the handler: numbers pass through,
strings are parsed (full-string float syntax; the handler only sees
strings that already passed `isFloat`), everything else is `NaN`. -/
def jsParseFloatV : JVal → JVal
  | .num q => .num q
  | .str s => (match strFloatVal? s with | some q => .num q | none => .nan)
  | _ => .nan

/-- Result of a create-payment-intent request: status, the `error` field
of an error response, and the recorded `stripe.paymentIntents.create`
call (if one was issued). -/
structure Route2Resp where
  status : Nat
  errMsg : Option String
  gatewayCall : Option CreateArgs
  deriving DecidableEq, Repr

/-- `router.post('/create-payment-intent')` (second version, lines
620–735): normalization, the express-validator chain (400
`Validation failed`), the `donationData` construction with
`donorName: req.body.anonymous ? 'Anonymous' : (req.body.donorName ||
'Anonymous')`, the utils `validateDonationData` (400
`Invalid donation data`), then `stripeService.createPaymentIntent`;
thrown errors become 500. -/
def createPaymentIntentRoute2 (isEmail : String → Bool) (isUL : Char → Bool)
    (gw : CreateArgs → Except StripeErr PaymentIntent) (b : Body2) : Route2Resp :=
  match normalizeDonationPayload b with
  | .error e => ⟨500, some e, none⟩
  | .ok nb =>
    if ¬evCreateStage2 isEmail nb then ⟨400, some "Validation failed", none⟩
    else
      let donationData : DonationData :=
        { amount := jsParseFloatV nb.amount
          projectId := nb.projectId
          donorName := if truthy nb.anonymous then .str "Anonymous"
                       else if truthy nb.donorName then nb.donorName else .str "Anonymous"
          donorEmail := nb.donorEmail
          anonymous := if truthy nb.anonymous then nb.anonymous else .bool false
          message := if truthy nb.message then nb.message else .str ""
          projectTitle := if truthy nb.projectTitle then nb.projectTitle
                          else .str "Community Project"
          paymentMethod := .undef }
      match validateDonationDataU isEmail isUL donationData with
      | .error e => ⟨500, some e, none⟩
      | .ok v =>
        if ¬v.isValid then ⟨400, some "Invalid donation data", none⟩
        else
          match createPaymentIntentService isEmail gw donationData with
          | (.ok _, call) => ⟨200, none, call⟩
          | (.error e, call) => ⟨500, some e, call⟩

/-! ## Concrete instances used by witnesses and counterexamples -/

/-- The byte list of `"abc"`. -/
def demoPayload : List Nat := [97, 98, 99]

/-- The byte list of `"key"`, a demo webhook secret. -/
def demoSecret : List Nat := [107, 101, 121]

/-- A correctly signed signature header with two trailing non-hex
characters appended. -/
def demoSigTrailing : String :=
  String.mk (hexChars (hmacSha256 demoSecret demoPayload) ++ ['z', 'z'])

/-- The canonical (lowercase-hex) signature for a payload under a
secret. -/
def canonicalSig (secret payload : List Nat) : String :=
  String.mk (hexChars (hmacSha256 secret payload))

/-- The spec's wording of webhook acceptance: the signature after
stripping the `whsec_` prefix equals the hex HMAC-SHA256 of the payload
under the secret (string equality with the hex digest). -/
def specSignatureAccepts (payload : List Nat) (signature : String) (secret : List Nat) : Prop :=
  replaceFirstList whsecPat signature.toList = hexChars (hmacSha256 secret payload)

/-- A gateway that accepts every create call. -/
def demoGateway : CreateArgs → Except StripeErr PaymentIntent :=
  fun _ => .ok { id := "pi_1", clientSecret := "cs_1", amount := 5000,
                 status := "requires_payment_method" }

/-- A demo payment-intent id in RFC-4122 form. -/
def demoUuid : String := "123e4567-e89b-12d3-a456-426614174000"

/-- A retrieve gateway holding one payment intent, captured at 5000
minor units ($50.00). -/
def demoGwGet : String → Option PaymentIntent :=
  fun pid => if pid = demoUuid
             then some { id := demoUuid, clientSecret := "cs_orig", amount := 5000,
                         status := "succeeded" }
             else none

/-- A refunds gateway that accepts every refund call. -/
def demoGwRefund : RefundArgs → Except String String := fun _ => .ok "re_1"

/-! ## Helper lemmas -/

theorem hexVal_hexDigitChar : ∀ n < 16, hexVal? (hexDigitChar n) = some n := by decide

theorem hexDigitChar_ne_w (n : Nat) : hexDigitChar n ≠ 'w' := by
  rcases Nat.lt_or_ge n 16 with h | h
  · interval_cases n <;> decide
  · unfold hexDigitChar
    rw [List.getD_eq_default]
    · decide
    · simpa using h

theorem hexChars_nil : hexChars [] = [] := rfl

theorem hexChars_cons (b : Nat) (t : List Nat) :
    hexChars (b :: t) = hexDigitChar (b / 16 % 16) :: hexDigitChar (b % 16) :: hexChars t := by
  simp [hexChars]

theorem hexChars_length (bs : List Nat) : (hexChars bs).length = 2 * bs.length := by
  induction bs with
  | nil => rfl
  | cons b t ih => rw [hexChars_cons]; simp only [List.length_cons, ih]; omega

theorem hexChars_ne_w (bs : List Nat) : ∀ c ∈ hexChars bs, c ≠ 'w' := by
  intro c hc
  simp only [hexChars, List.mem_flatMap] at hc
  obtain ⟨b, _, hb⟩ := hc
  simp only [List.mem_cons, List.not_mem_nil, or_false] at hb
  rcases hb with h | h
  · exact h ▸ hexDigitChar_ne_w _
  · exact h ▸ hexDigitChar_ne_w _

theorem nodeHexDecode_hexChars_append (bs : List Nat) (rest : List Char)
    (h : ∀ b ∈ bs, b < 256) :
    nodeHexDecode (hexChars bs ++ rest) = bs ++ nodeHexDecode rest := by
  induction bs with
  | nil => rfl
  | cons b t ih =>
    have hb : b < 256 := h b (by simp)
    have h1 : b / 16 % 16 = b / 16 := Nat.mod_eq_of_lt (by omega)
    have h2 : b / 16 < 16 := by omega
    have h3 : b % 16 < 16 := Nat.mod_lt _ (by omega)
    rw [hexChars_cons, h1]
    show nodeHexDecode (hexDigitChar (b / 16) :: hexDigitChar (b % 16) :: (hexChars t ++ rest)) = _
    rw [nodeHexDecode, hexVal_hexDigitChar _ h2, hexVal_hexDigitChar _ h3]
    have hbv : 16 * (b / 16) + b % 16 = b := by omega
    show (16 * (b / 16) + b % 16) :: nodeHexDecode (hexChars t ++ rest) = b :: t ++ nodeHexDecode rest
    rw [hbv, ih fun x hx => h x (List.mem_cons_of_mem _ hx)]
    rfl

theorem nodeHexDecode_hexChars (bs : List Nat) (h : ∀ b ∈ bs, b < 256) :
    nodeHexDecode (hexChars bs) = bs := by
  have h0 : nodeHexDecode [] = [] := rfl
  have := nodeHexDecode_hexChars_append bs [] h
  simpa [h0] using this

theorem wordBytes_lt (w : Nat) : ∀ b ∈ wordBytes w, b < 256 := by
  intro b hb
  simp only [wordBytes, List.mem_cons, List.not_mem_nil, or_false] at hb
  rcases hb with h | h | h | h <;> subst h <;> exact Nat.mod_lt _ (by norm_num)

theorem shaDigestBytes_lt (s : ShaState) : ∀ b ∈ shaDigestBytes s, b < 256 := by
  intro b hb
  simp only [shaDigestBytes, List.mem_append] at hb
  rcases hb with ((((((h | h) | h) | h) | h) | h) | h) | h <;> exact wordBytes_lt _ _ h

theorem sha256_lt (m : List Nat) : ∀ b ∈ sha256 m, b < 256 :=
  shaDigestBytes_lt _

theorem hmacSha256_lt (key msg : List Nat) : ∀ b ∈ hmacSha256 key msg, b < 256 :=
  sha256_lt _

theorem whsecPat_eq : whsecPat = 'w' :: "hsec_".toList := rfl

theorem replaceFirstList_id_of_ne_w (l : List Char) (h : ∀ c ∈ l, c ≠ 'w') :
    replaceFirstList whsecPat l = l := by
  induction l with
  | nil => rfl
  | cons c t ih =>
    have hc : c ≠ 'w' := h c (by simp)
    have hw : ('w' == c) = false := by
      rw [beq_eq_false_iff_ne]
      exact fun e => hc e.symm
    have hpre : whsecPat.isPrefixOf (c :: t) = false := by
      rw [whsecPat_eq, List.isPrefixOf, hw, Bool.false_and]
    rw [replaceFirstList, hpre]
    simp only [Bool.false_eq_true, if_false]
    rw [ih fun x hx => h x (List.mem_cons_of_mem _ hx)]

/-- The characterization `validateWebhookSignature` actually satisfies:
acceptance is byte-level equality of the Node hex decoding of the
stripped signature with the HMAC digest. -/
theorem validateWebhookSignature_iff (payload : List Nat) (signature : String)
    (secret : List Nat) :
    validateWebhookSignature payload signature secret = true ↔
      nodeHexDecode (replaceFirstList whsecPat signature.toList) = hmacSha256 secret payload := by
  unfold validateWebhookSignature timingSafeEqual
  have hdec : nodeHexDecode (hexChars (hmacSha256 secret payload)) = hmacSha256 secret payload :=
    nodeHexDecode_hexChars _ (hmacSha256_lt _ _)
  dsimp only
  rw [hdec]
  by_cases h :
      (nodeHexDecode (replaceFirstList whsecPat signature.toList)).length =
        (hmacSha256 secret payload).length
  · rw [if_pos h]
    show (_ == _) = true ↔ _
    exact beq_iff_eq
  · rw [if_neg h]
    show false = true ↔ _
    constructor
    · intro hf; cases hf
    · intro he; exact absurd (by rw [he]) h

/-- The canonical lowercase-hex signature always verifies. -/
theorem validate_canonicalSig (secret payload : List Nat) :
    validateWebhookSignature payload (canonicalSig secret payload) secret = true := by
  rw [validateWebhookSignature_iff]
  have h1 : (canonicalSig secret payload).toList = hexChars (hmacSha256 secret payload) := rfl
  rw [h1, replaceFirstList_id_of_ne_w _ (hexChars_ne_w _),
    nodeHexDecode_hexChars _ (hmacSha256_lt _ _)]

/-! ## Claim theorems -/

/-- C3 (amended): webhook signature verification returns true exactly
when the Node hex decoding of the signature, after stripping the first
`whsec_` occurrence, equals the HMAC-SHA256 digest bytes of the raw
payload under the secret (Node's hex decoding ignores character case and
trailing non-hex input, so this is weaker than string equality with the
lowercase hex digest); consequently two accepted triples sharing a
signature must share their HMAC digest, so changing the payload or the
secret of an accepted triple keeps acceptance only under an HMAC
collision. -/
theorem C3_signature_characterization :
    (∀ payload signature secret,
      validateWebhookSignature payload signature secret = true ↔
        nodeHexDecode (replaceFirstList whsecPat signature.toList) =
          hmacSha256 secret payload) ∧
    (∀ payload payload2 signature secret secret2,
      validateWebhookSignature payload signature secret = true →
      validateWebhookSignature payload2 signature secret2 = true →
      hmacSha256 secret2 payload2 = hmacSha256 secret payload) := by
  refine ⟨validateWebhookSignature_iff, ?_⟩
  intro payload payload2 signature secret secret2 h1 h2
  have e1 := (validateWebhookSignature_iff payload signature secret).mp h1
  have e2 := (validateWebhookSignature_iff payload2 signature secret2).mp h2
  rw [← e1, ← e2]

theorem C3_signature_characterization_witness :
    validateWebhookSignature demoPayload (canonicalSig demoSecret demoPayload) demoSecret
      = true ∧
    hmacSha256 demoSecret demoPayload = hmacSha256 demoSecret demoPayload := by
  refine ⟨validate_canonicalSig _ _, ?_⟩
  exact (C3_signature_characterization).2 demoPayload demoPayload
    (canonicalSig demoSecret demoPayload) demoSecret demoSecret
    (validate_canonicalSig _ _) (validate_canonicalSig _ _)

/-- C3 counterexample: appending the non-hex characters `zz` to a valid
lowercase-hex signature still verifies, although the stripped signature
is no longer equal (as a string) to the hex HMAC digest — Node's
`Buffer.from(sig, 'hex')` silently stops at the first invalid pair. -/
theorem C3_counterexample :
    validateWebhookSignature demoPayload demoSigTrailing demoSecret = true ∧
    ¬ specSignatureAccepts demoPayload demoSigTrailing demoSecret := by
  have hlist : demoSigTrailing.toList =
      hexChars (hmacSha256 demoSecret demoPayload) ++ ['z', 'z'] := rfl
  have hnw : ∀ c ∈ hexChars (hmacSha256 demoSecret demoPayload) ++ ['z', 'z'], c ≠ 'w' := by
    intro c hc
    rcases List.mem_append.mp hc with h | h
    · exact hexChars_ne_w _ c h
    · simp only [List.mem_cons, List.not_mem_nil, or_false] at h
      rcases h with h | h <;> subst h <;> decide
  constructor
  · rw [validateWebhookSignature_iff, hlist, replaceFirstList_id_of_ne_w _ hnw,
      nodeHexDecode_hexChars_append _ _ (hmacSha256_lt _ _)]
    have hz : nodeHexDecode ['z', 'z'] = [] := rfl
    rw [hz, List.append_nil]
  · intro hs
    unfold specSignatureAccepts at hs
    rw [hlist, replaceFirstList_id_of_ne_w _ hnw] at hs
    have hlen := congrArg List.length hs
    rw [List.length_append, hexChars_length] at hlen
    simp only [List.length_cons, List.length_nil] at hlen
    omega

/-- C6: the receipt round-trip fails — `generateReceipt` writes
`receipt-<id>-<timestamp>.pdf` while `getReceiptPath` (used by
`receiptExists`) looks for `receipt-<id>.pdf`, so a freshly generated
receipt is reported as absent. -/
theorem C6_receipt_roundtrip_bug :
    (generateReceipt [] "pi_123" 1734567890123).2 ≠ getReceiptPath "pi_123" ∧
    receiptExists (generateReceipt [] "pi_123" 1734567890123).1 "pi_123" = false := by
  decide

/-- C7 (amended): every GET /api/donations/receipt/:paymentIntentId
request is answered with the unconditional 501 "receipt generation
disabled" response — never a PDF download and never a 404. -/
theorem C7_receipt_disabled (paymentIntentId : String) (h : paymentIntentId ≠ "") :
    receiptRoute paymentIntentId = ⟨501, false⟩ := by
  simp [receiptRoute, h]

theorem C7_receipt_disabled_witness : receiptRoute "pi_1" = ⟨501, false⟩ :=
  C7_receipt_disabled "pi_1" (by decide)

/-- C7 counterexample: the request for id `abc` is answered 501 with no
file download — neither a binary PDF download nor a 404. -/
theorem C7_counterexample :
    (receiptRoute "abc").status = 501 ∧
    ¬((receiptRoute "abc").isPdfDownload = true ∨ (receiptRoute "abc").status = 404) := by
  decide

theorem isEmpty_iff_nil (l : List String) : l.isEmpty = true ↔ l = [] := by
  cases l <;> simp

theorem validateAmountV_false_of_out (q : ℚ) (hout : q < 1 ∨ 10000 < q) :
    validateAmountV (.num q) = false := by
  simp only [validateAmountV, decide_eq_false_iff_not]
  rintro ⟨h1, h2⟩
  rcases hout with h | h <;> linarith

/-- C2: for every donation payload whose amount is a number outside
[1.00, 10000.00], `createPaymentIntent` rejects (with the service's
rewrapped error) and `stripe.paymentIntents.create` is never called. -/
theorem C2_amount_guard (isEmail : String → Bool)
    (gw : CreateArgs → Except StripeErr PaymentIntent) (d : DonationData) (q : ℚ)
    (hq : d.amount = .num q) (hout : q < 1 ∨ 10000 < q) :
    createPaymentIntentService isEmail gw d = (.error "Payment processing failed", none) := by
  have hA : validateAmountV d.amount = false := hq ▸ validateAmountV_false_of_out q hout
  have hInv : (validateDonationDataS isEmail d).isValid = false := by
    unfold validateDonationDataS
    by_cases ht : truthy d.amount
    · simp [ht, hA]
    · simp [ht]
  unfold createPaymentIntentService
  simp [hInv]

theorem C2_amount_guard_witness :
    ((1 : ℚ)/2 < 1 ∨ (10000 : ℚ) < 1/2) ∧
    createPaymentIntentService emailRegexMatch demoGateway
      { amount := .num (1/2), projectId := .str "general", donorName := .str "Jo",
        donorEmail := .str "a@b.com", anonymous := .bool false } =
      (.error "Payment processing failed", none) := by
  refine ⟨Or.inl (by norm_num), ?_⟩
  exact C2_amount_guard emailRegexMatch demoGateway _ (1/2) rfl (Or.inl (by norm_num))

/-- C4 (code bug): the refund route performs no comparison of the
requested amount with the captured amount — a $100.00 refund request
against a payment intent captured at 5000 minor units ($50.00) passes
every local check and is forwarded to `stripe.refunds.create` with
amount 10000 minor units; an omitted amount is forwarded with no amount
(full refund), as the claim states. -/
theorem C4_refund_no_cap_check :
    (refundRoute demoGwGet demoGwRefund
        { paymentIntentId := .str demoUuid, amount := .num 100, reason := .undef }).refundCall
      = some { paymentIntent := demoUuid, amount := some (.num 10000),
               reason := .str "requested_by_customer" } ∧
    (demoGwGet demoUuid).map PaymentIntent.amount = some 5000 ∧
    (refundRoute demoGwGet demoGwRefund
        { paymentIntentId := .str demoUuid, amount := .undef, reason := .undef }).refundCall
      = some { paymentIntent := demoUuid, amount := none,
               reason := .str "requested_by_customer" } := by
  refine ⟨?_, by decide, by decide⟩
  simp only [refundRoute, evRefundStage, validateRefundDataU, refundPidErrors, truthy,
    validateAmountV, createRefundService, jsRoundV, jsMulNum, jsRound, demoGwGet, demoGwRefund]
  norm_num
  decide

theorem donorNameErrors_anon_ok (isUL : Char → Bool) (anonymous donorName : JVal)
    (ha : truthy anonymous = true) :
    ∃ e4, donorNameErrors isUL anonymous donorName = .ok e4 := by
  unfold donorNameErrors
  rw [if_neg (by simp [ha])]
  split <;> exact ⟨_, rfl⟩

theorem donorNameErrors_falsy_ok (isUL : Char → Bool) (anonymous donorName : JVal)
    (ha : truthy anonymous = false) (hn : truthy donorName = false) :
    ∃ e4, donorNameErrors isUL anonymous donorName = .ok e4 := by
  unfold donorNameErrors
  rw [if_pos (by simp [ha]), if_pos (by simp [hn])]
  exact ⟨_, rfl⟩

theorem donorNameErrors_str_ok (isUL : Char → Bool) (anonymous : JVal) (s : String)
    (ha : truthy anonymous = false) :
    ∃ e4, donorNameErrors isUL anonymous (.str s) = .ok e4 := by
  unfold donorNameErrors
  rw [if_pos (by simp [ha])]
  by_cases ht : truthy (JVal.str s)
  · rw [if_neg (by simp [ht])]
    show ∃ e4, (if jsTrim s = ""
        then (Except.ok ["Donor name is required for non-anonymous donations"] :
          Except String (List String))
        else if ¬validateNameStr isUL s = true then .ok ["Invalid donor name format"]
        else .ok []) = .ok e4
    split
    · exact ⟨_, rfl⟩
    · split <;> exact ⟨_, rfl⟩
  · rw [if_pos]
    · exact ⟨_, rfl⟩
    · simpa using ht

theorem refundPidErrors_not_uuid (s : String) (hu : isUUIDStr s = false) :
    ∃ m, refundPidErrors (.str s) = .ok [m] := by
  unfold refundPidErrors
  by_cases hs : s = ""
  · subst hs
    exact ⟨"Payment intent ID is required", by simp [truthy]⟩
  · refine ⟨"Invalid payment intent ID format", ?_⟩
    have ht : truthy (.str s) = true := by simp [truthy, hs]
    simp [ht, hu]

/-- C9 (amended): a refund request whose `paymentIntentId` is a string
that is not an RFC-4122 UUID — in particular the gateway's own `pi_…`
format — is rejected with 400 before `getPaymentIntent` or
`createRefund` is called; the body is `Invalid refund data` when the
remaining fields pass the express-validator format stage and
`Validation failed` otherwise. -/
theorem C9_refund_uuid_gate (gwGet : String → Option PaymentIntent)
    (gwRefund : RefundArgs → Except String String) (b : RefundData) (s : String)
    (hpid : b.paymentIntentId = .str s) (hu : isUUIDStr s = false) :
    (refundRoute gwGet gwRefund b).status = 400 ∧
    (refundRoute gwGet gwRefund b).piFetched = none ∧
    (refundRoute gwGet gwRefund b).refundCall = none ∧
    (evRefundStage b = true →
      (refundRoute gwGet gwRefund b).errMsg = some "Invalid refund data") ∧
    (evRefundStage b = false →
      (refundRoute gwGet gwRefund b).errMsg = some "Validation failed") := by
  by_cases hev : evRefundStage b = true
  · obtain ⟨m, hm⟩ := refundPidErrors_not_uuid s hu
    have hval : ∀ a r : JVal, ∃ res,
        validateRefundDataU { paymentIntentId := .str s, amount := a, reason := r }
          = .ok res ∧ res.isValid = false := by
      intro a r
      unfold validateRefundDataU
      rw [hm]
      refine ⟨_, rfl, ?_⟩
      simp
    obtain ⟨res, hres, hresv⟩ :=
      hval b.amount (if truthy b.reason then b.reason else .str "requested_by_customer")
    have hroute : refundRoute gwGet gwRefund b = ⟨400, some "Invalid refund data", none, none⟩ := by
      unfold refundRoute
      rw [hpid]
      simp only [hev, Bool.not_true, Bool.false_eq_true, if_false]
      rw [hres]
      simp [hresv]
    rw [hroute]
    exact ⟨rfl, rfl, rfl, fun _ => rfl, fun hf => absurd hev (by simp [hf])⟩
  · have hevf : evRefundStage b = false := by
      simpa using hev
    have hroute : refundRoute gwGet gwRefund b = ⟨400, some "Validation failed", none, none⟩ := by
      unfold refundRoute
      simp [hevf]
    rw [hroute]
    exact ⟨rfl, rfl, rfl, fun ht => absurd ht hev, fun _ => rfl⟩

theorem C9_refund_uuid_gate_witness :
    (refundRoute demoGwGet demoGwRefund
      { paymentIntentId := .str "pi_42", amount := .undef, reason := .undef }).status = 400 ∧
    (refundRoute demoGwGet demoGwRefund
      { paymentIntentId := .str "pi_42", amount := .undef, reason := .undef }).piFetched
        = none ∧
    (refundRoute demoGwGet demoGwRefund
      { paymentIntentId := .str "pi_42", amount := .undef, reason := .undef }).refundCall
        = none ∧
    (refundRoute demoGwGet demoGwRefund
      { paymentIntentId := .str "pi_42", amount := .undef, reason := .undef }).errMsg
        = some "Invalid refund data" := by
  have h := C9_refund_uuid_gate demoGwGet demoGwRefund
    { paymentIntentId := .str "pi_42", amount := .undef, reason := .undef } "pi_42"
    rfl (by decide)
  exact ⟨h.1, h.2.1, h.2.2.1, h.2.2.2.1 (by decide)⟩

/-- C9 counterexample: a `pi_…` id together with a malformed amount is
rejected with body `Validation failed`, not `Invalid refund data` — the
express-validator stage answers first (still 400, still before any
gateway call). -/
theorem C9_counterexample :
    isUUIDStr "pi_3ABC" = false ∧
    refundRoute demoGwGet demoGwRefund
        { paymentIntentId := .str "pi_3ABC", amount := .num (1/2), reason := .undef } =
      ⟨400, some "Validation failed", none, none⟩ := by
  refine ⟨by decide, ?_⟩
  simp only [refundRoute, evRefundStage, truthy, validateAmountV]
  norm_num

/-- C8 (amended): the donation and refund validators return a
`{isValid, errors}` object with `isValid` true exactly when `errors` is
empty, for every payload whose `donorName` (when the payload is
non-anonymous) and `paymentIntentId` are strings or falsy; on a truthy
non-string `donorName` in a non-anonymous donation, or a truthy
non-string `paymentIntentId` in a refund, they throw a `TypeError`
instead of returning. -/
theorem C8_validators_total (isEmail : String → Bool) (isUL : Char → Bool) :
    (∀ d : DonationData,
      (truthy d.anonymous = true ∨ truthy d.donorName = false ∨ (∃ s, d.donorName = .str s)) →
      ∃ r, validateDonationDataU isEmail isUL d = .ok r ∧
        (r.isValid = true ↔ r.errors = [])) ∧
    (∀ rd : RefundData,
      (truthy rd.paymentIntentId = false ∨ (∃ s, rd.paymentIntentId = .str s)) →
      ∃ r, validateRefundDataU rd = .ok r ∧ (r.isValid = true ↔ r.errors = [])) := by
  constructor
  · intro d hd
    have hname : ∃ e4, donorNameErrors isUL d.anonymous d.donorName = .ok e4 := by
      by_cases ha : truthy d.anonymous
      · exact donorNameErrors_anon_ok isUL _ _ ha
      · have haf : truthy d.anonymous = false := by simpa using ha
        rcases hd with h | h | ⟨s, h⟩
        · exact absurd h ha
        · exact donorNameErrors_falsy_ok isUL _ _ haf h
        · exact h ▸ donorNameErrors_str_ok isUL _ s haf
    obtain ⟨e4, he4⟩ := hname
    unfold validateDonationDataU
    rw [he4]
    exact ⟨_, rfl, isEmpty_iff_nil _⟩
  · intro rd hrd
    have hpid : ∃ e1, refundPidErrors rd.paymentIntentId = .ok e1 := by
      unfold refundPidErrors
      rcases hrd with h | ⟨s, h⟩
      · simp [h]
      · rw [h]
        by_cases ht : truthy (JVal.str s) <;> simp [ht]
    obtain ⟨e1, he1⟩ := hpid
    unfold validateRefundDataU
    rw [he1]
    exact ⟨_, rfl, isEmpty_iff_nil _⟩

theorem C8_validators_total_witness :
    (∃ r, validateDonationDataU emailRegexMatch Char.isAlpha
        { amount := .num 50, projectId := .str "general", donorName := .str "Jo",
          donorEmail := .str "a@b.com", anonymous := .bool false } = .ok r ∧
      (r.isValid = true ↔ r.errors = [])) ∧
    (∃ r, validateRefundDataU
        { paymentIntentId := .str "pi_42", amount := .undef, reason := .undef } = .ok r ∧
      (r.isValid = true ↔ r.errors = [])) := by
  refine ⟨(C8_validators_total emailRegexMatch Char.isAlpha).1 _ ?_,
    (C8_validators_total emailRegexMatch Char.isAlpha).2 _ ?_⟩
  · exact Or.inr (Or.inr ⟨"Jo", rfl⟩)
  · exact Or.inr ⟨"pi_42", rfl⟩

/-- C8 counterexample: both validators throw a `TypeError` instead of
returning `{isValid, errors}` — the donation validator on a numeric
`donorName` with `anonymous` false (`donorName.trim is not a function`),
the refund validator on a numeric `paymentIntentId`
(`validator.isUUID`'s string assertion). -/
theorem C8_counterexample :
    validateDonationDataU emailRegexMatch Char.isAlpha
      { amount := .num 50, projectId := .str "general", donorEmail := .str "a@b.com",
        donorName := .num 42, anonymous := .bool false } =
      .error "TypeError: donationData.donorName.trim is not a function" ∧
    validateRefundDataU { paymentIntentId := .num 7, amount := .undef, reason := .undef } =
      .error "TypeError: Expected a string but received a non-string" :=
  ⟨rfl, rfl⟩

theorem subscribeRoute_nodup (st : List String) (e : JVal) (h : st.Nodup) :
    ((subscribeRoute st e).1).Nodup := by
  cases e with
  | str s =>
    unfold subscribeRoute
    by_cases hr : emailRegexMatch s = true
    · by_cases hm : s ∈ st
      · simp [hr, hm, h]
      · simp [hr, hm, h, List.nodup_append]
    · simp only [Bool.not_eq_true] at hr
      simp [hr, h]
  | undef => exact h
  | null => exact h
  | bool b => exact h
  | num q => exact h
  | nan => exact h

/-- C10: subscribing an already-present email responds 409 and leaves
the subscriber file unchanged; a successful subscription appends exactly
that one email; consequently, starting from the empty subscriber file,
any sequence of sequential subscribe requests leaves a duplicate-free
subscriber list. -/
theorem C10_newsletter_no_duplicates :
    (∀ subs s, emailRegexMatch s = true → s ∈ subs →
      subscribeRoute subs (.str s) = (subs, 409)) ∧
    (∀ subs s, emailRegexMatch s = true → s ∉ subs →
      subscribeRoute subs (.str s) = (subs ++ [s], 200)) ∧
    (∀ reqs : List JVal,
      (reqs.foldl (fun st e => (subscribeRoute st e).1) []).Nodup) := by
  refine ⟨?_, ?_, ?_⟩
  · intro subs s hr hm; simp [subscribeRoute, hr, hm]
  · intro subs s hr hm; simp [subscribeRoute, hr, hm]
  · intro reqs
    have key : ∀ (l : List JVal) (st : List String), st.Nodup →
        (l.foldl (fun st e => (subscribeRoute st e).1) st).Nodup := by
      intro l
      induction l with
      | nil => intro st h; exact h
      | cons e t ih => intro st h; exact ih _ (subscribeRoute_nodup st e h)
    exact key reqs [] List.nodup_nil

theorem C10_newsletter_no_duplicates_witness :
    subscribeRoute ["a@b.com"] (.str "a@b.com") = (["a@b.com"], 409) ∧
    subscribeRoute [] (.str "a@b.com") = (["a@b.com"], 200) := by
  refine ⟨C10_newsletter_no_duplicates.1 ["a@b.com"] "a@b.com" (by decide) (by decide), ?_⟩
  have h := C10_newsletter_no_duplicates.2.1 [] "a@b.com" (by decide) (by decide)
  simpa using h

/-- C5: a donation request with `anonymous = true` and `donorName`
omitted, whose remaining fields are valid (amount in range, valid
project id, accepted email), passes every validation stage (the response
is not a 400), and the payment intent is created with metadata
`donorName` equal to the string `Anonymous` — never the empty string. -/
theorem C5_anonymous_donation (isEmail : String → Bool) (isUL : Char → Bool)
    (gw : CreateArgs → Except StripeErr PaymentIntent)
    (b : Body2) (q : ℚ) (p e : String)
    (hb1 : b.amount = .num q) (hb2 : b.projectId = .str p) (hb3 : b.donorName = .undef)
    (hb4 : b.donorEmail = .str e) (hb5 : b.anonymous = .bool true) (hb6 : b.message = .undef)
    (hb7 : b.projectTitle = .undef)
    (hq1 : 1 ≤ q) (hq2 : q ≤ 10000)
    (hpt : jsTrim p = p) (hpne : p ≠ "")
    (hpok : (jsToLower p == "general" || isUUIDStr p || friendlyProjectIdOk p) = true)
    (het : jsTrim e = e) (he : e ≠ "") (hene : jsToLower e ≠ "")
    (hem : isEmail (jsToLower e) = true) (helen : (jsToLower e).length ≤ 254) :
    (createPaymentIntentRoute2 isEmail isUL gw b).status ≠ 400 ∧
    ∃ a, (createPaymentIntentRoute2 isEmail isUL gw b).gatewayCall = some a ∧
      a.metadata.donorName = .str "Anonymous" ∧ a.metadata.donorName ≠ .str "" := by
  have hnorm : normalizeDonationPayload b = .ok
      { amount := .num q, projectId := .str p, donorName := .str "Anonymous",
        donorEmail := .str (jsToLower e), anonymous := .bool true, message := .str "",
        projectTitle := .undef } := by
    unfold normalizeDonationPayload normalizeDonorName normalizeAmount
    rw [hb1, hb2, hb3, hb4, hb5, hb6, hb7]
    simp [truthy, hpne, he, hpt, het]
  have hev : evCreateStage2 isEmail
      { amount := .num q, projectId := .str p, donorName := .str "Anonymous",
        donorEmail := .str (jsToLower e), anonymous := .bool true, message := .str "",
        projectTitle := .undef } = true := by
    simp [evCreateStage2, routeProjectIdOk, truthy, hpt, hpok, hem, hene]
    exact ⟨⟨hq1, hq2⟩, by decide⟩
  unfold createPaymentIntentRoute2
  rw [hnorm]
  dsimp only [truthy]
  rw [if_neg (by simp [hev])]
  simp only [jsParseFloatV, reduceIte, decide_eq_true_eq, ne_eq, not_true,
    Bool.false_eq_true, if_false, ite_false]
  have hdn : donorNameErrors isUL (JVal.bool true) (JVal.str "Anonymous") = .ok [] := by
    unfold donorNameErrors
    rw [if_neg (by simp [truthy])]
    rw [if_neg (by simp)]
  have hqne : q ≠ 0 := by
    intro h0
    rw [h0] at hq1
    norm_num at hq1
  have hq0 : truthy (JVal.num q) = true := by
    simp only [truthy]
    rw [bne_iff_ne]
    intro h0
    rw [h0] at hq1
    norm_num at hq1
  have hval : validateDonationDataU isEmail isUL
      { amount := JVal.num q, projectId := JVal.str p, donorName := JVal.str "Anonymous",
        donorEmail := JVal.str (jsToLower e), anonymous := JVal.bool true,
        message := JVal.str "", projectTitle := JVal.str "Community Project",
        paymentMethod := JVal.undef } = .ok ⟨true, []⟩ := by
    unfold validateDonationDataU
    rw [hdn]
    have hpOk : validateProjectIdV (JVal.str p) = true := by
      have hp2 := hpok
      simp only [Bool.or_eq_true, beq_iff_eq] at hp2
      simp [validateProjectIdV, hpt, hpne]
      tauto
    have heOk : validateEmailV isEmail (JVal.str (jsToLower e)) = true := by
      simp [validateEmailV, hene, hem, helen]
    simp [truthy, hq0, hpne, hene, hpOk, heOk, validateAmountV, validateMessageV,
      validateAnonymousV, hq1, hq2, hqne]
  rw [hval]
  simp only [reduceIte, not_true, Bool.false_eq_true, if_false]
  have h254 : ¬((jsToLower e).length > 254) := by omega
  have hS : validateDonationDataS isEmail
      { amount := JVal.num q, projectId := JVal.str p, donorName := JVal.str "Anonymous",
        donorEmail := JVal.str (jsToLower e), anonymous := JVal.bool true,
        message := JVal.str "", projectTitle := JVal.str "Community Project",
        paymentMethod := JVal.undef } = ⟨true, []⟩ := by
    have heOk : validateEmailV isEmail (JVal.str (jsToLower e)) = true := by
      simp [validateEmailV, hene, hem, helen]
    unfold validateDonationDataS
    simp [truthy, hq0, hqne, hpne, hene, heOk, validateAmountV, jsLenGt, hq1, hq2, h254]
    decide
  have hsvc : ∃ res, createPaymentIntentService isEmail gw
      { amount := JVal.num q, projectId := JVal.str p, donorName := JVal.str "Anonymous",
        donorEmail := JVal.str (jsToLower e), anonymous := JVal.bool true,
        message := JVal.str "", projectTitle := JVal.str "Community Project",
        paymentMethod := JVal.undef } =
      (res, some
        { amount := jsRoundV (jsMulNum (JVal.num q) 100), currency := "cad",
          metadata := { projectId := JVal.str p, donorName := JVal.str "Anonymous",
                        donorEmail := JVal.str (jsToLower e), message := JVal.str "",
                        anonymous := JVal.bool true },
          projectTitle := JVal.str "Community Project",
          receiptEmail := JVal.str (jsToLower e) }) := by
    unfold createPaymentIntentService
    rw [hS]
    rw [if_neg (by simp)]
    simp only [truthy, reduceIte, ite_self]
    cases hg : gw _ with
    | ok pi => exact ⟨_, rfl⟩
    | error err => exact ⟨_, rfl⟩
  obtain ⟨res, hres⟩ := hsvc
  rw [hres]
  cases res with
  | ok r =>
    exact ⟨by simp, ⟨_, rfl, rfl, by simp⟩⟩
  | error err =>
    exact ⟨by simp, ⟨_, rfl, rfl, by simp⟩⟩

theorem C5_anonymous_donation_witness :
    (createPaymentIntentRoute2 emailRegexMatch Char.isAlpha demoGateway
      { amount := .num 50, projectId := .str "general", donorName := .undef,
        donorEmail := .str "a@b.com", anonymous := .bool true, message := .undef,
        projectTitle := .undef }).status ≠ 400 ∧
    ∃ a, (createPaymentIntentRoute2 emailRegexMatch Char.isAlpha demoGateway
      { amount := .num 50, projectId := .str "general", donorName := .undef,
        donorEmail := .str "a@b.com", anonymous := .bool true, message := .undef,
        projectTitle := .undef }).gatewayCall = some a ∧
      a.metadata.donorName = .str "Anonymous" ∧ a.metadata.donorName ≠ .str "" := by
  exact C5_anonymous_donation emailRegexMatch Char.isAlpha demoGateway _ 50 "general" "a@b.com"
    rfl rfl rfl rfl rfl rfl rfl (by norm_num) (by norm_num) (by decide) (by decide)
    (by decide) (by decide) (by decide) (by decide) (by decide) (by decide)

end Metrax
